import Mathlib

/-!
Shallow embedding of the pynat port forwarder (src/port_forwarding.py and
src/port_forwarding_terminator.py) and proofs about its behaviour.

Bytes are modelled as natural numbers; Python byte strings (`str` in the
Python-2 source) as `List Nat`.
-/

namespace Pynat

/-! ## port_forwarding_terminator.py -/

/-- The two listener dispatchers a `ConnectionToTerminator` holds handles to:
the `PortForwarding` that was passed to `PortForwardingTerminator.__init__`
as `socket_to_close`, and the `PortForwardingTerminator` itself. -/
inductive ListenerRef where
  | portForwarding
  | terminator
  deriving DecidableEq, Repr

/-- Observable side effects of the terminator's handlers.
`forwardingClosed` is `PortForwarding.handle_close` running (the forwarding
listening socket is closed); `terminatorClosed` is
`PortForwardingTerminator.handle_close` running (`remove(sockname)` unlinks
the control address, then the control listening socket is closed);
`connectionClosed` is `ConnectionToTerminator.handle_close` running
(only that control connection's socket is closed). -/
inductive Event where
  | forwardingClosed
  | terminatorClosed
  | connectionClosed
  deriving DecidableEq, Repr

/-- Dispatch `handle_close` on the dispatcher a `ListenerRef` denotes,
as an observable event. -/
def dispatchClose : ListenerRef → Event
  | .portForwarding => .forwardingClosed
  | .terminator => .terminatorClosed

/-- State of a `ConnectionToTerminator` dispatcher: the attributes set by
`__init__` (`secret`, `close_listener`, `forwarding_listener`, `recv_buf`)
plus whether its socket has been closed. -/
structure ConnectionToTerminator where
  secret : List Nat
  close_listener : ListenerRef
  forwarding_listener : ListenerRef
  recv_buf : List Nat
  closed : Bool
  deriving DecidableEq, Repr

namespace ConnectionToTerminator

/-- `ConnectionToTerminator.__init__`: positional parameters
`(connection, secret, close_listener, forwarding_listener, bufsize)`;
`recv_buf` starts empty. -/
def init (secret : List Nat) (close_listener forwarding_listener : ListenerRef) :
    ConnectionToTerminator :=
  { secret := secret
    close_listener := close_listener
    forwarding_listener := forwarding_listener
    recv_buf := []
    closed := false }

/-- `ConnectionToTerminator.handle_read`: append the received bytes to
`recv_buf`; if the accumulator is longer than the secret, run
`handle_close` and return; if it equals the secret, run
`forwarding_listener.handle_close()`, then `close_listener.handle_close()`,
then its own `handle_close`.  Returns the updated connection and the
ordered list of observable events. -/
def handle_read (c : ConnectionToTerminator) (recv : List Nat) :
    ConnectionToTerminator × List Event :=
  let buf := c.recv_buf ++ recv
  if buf.length > c.secret.length then
    ({ c with recv_buf := buf, closed := true }, [.connectionClosed])
  else if c.secret = buf then
    ({ c with recv_buf := buf, closed := true },
     [dispatchClose c.forwarding_listener, dispatchClose c.close_listener,
      .connectionClosed])
  else
    ({ c with recv_buf := buf }, [])

end ConnectionToTerminator

/-- `PortForwardingTerminator.handle_accept` (the non-degenerate branch):
constructs `ConnectionToTerminator(connection, self.socket_secret,
self.socket_to_close, self, self.bufsize)`, so positionally
`close_listener := socket_to_close` (the `PortForwarding`) and
`forwarding_listener := self` (the `PortForwardingTerminator`). -/
def PortForwardingTerminator.handle_accept (socket_secret : List Nat) :
    ConnectionToTerminator :=
  ConnectionToTerminator.init socket_secret .portForwarding .terminator

/-- State touched by the terminator's shutdown events: whether the
forwarding listener still accepts, whether the control channel still
listens, and whether its filesystem address is still bound. -/
structure ChannelSystem where
  forwarding_listening : Bool
  terminator_listening : Bool
  terminator_address_bound : Bool
  deriving DecidableEq, Repr

/-- Effect of one observable event on the listeners' state:
`PortForwarding.handle_close` closes the forwarding listening socket;
`PortForwardingTerminator.handle_close` removes the control address and
closes the control listening socket; closing one control connection
touches neither. -/
def applyEvent (s : ChannelSystem) : Event → ChannelSystem
  | .forwardingClosed => { s with forwarding_listening := false }
  | .terminatorClosed =>
      { s with terminator_listening := false, terminator_address_bound := false }
  | .connectionClosed => s

/-- The event loop dispatches readability to a connection only while its
socket is registered: a closed `ConnectionToTerminator` is never handed
further reads. -/
def dispatchRead (c : ConnectionToTerminator) (recv : List Nat) :
    ConnectionToTerminator × List Event :=
  if c.closed then (c, []) else c.handle_read recv

/-- Run a sequence of received chunks through the event loop's dispatch,
collecting all observable events in order. -/
def runConn (c : ConnectionToTerminator) :
    List (List Nat) → ConnectionToTerminator × List Event
  | [] => (c, [])
  | recv :: rest =>
      let r := dispatchRead c recv
      let r2 := runConn r.1 rest
      (r2.1, r.2 ++ r2.2)

theorem runConn_closed (c : ConnectionToTerminator) (h : c.closed = true) :
    ∀ l : List (List Nat), runConn c l = (c, []) := by
  intro l
  induction l with
  | nil => rfl
  | cons recv rest ih =>
      simp [runConn, dispatchRead, h, ih]

/-! ## port_forwarding.py -/

/-- `PortForwarding.ForwardingBuffers`: the two shared byte buffers of one
relay pair, both empty after `__init__`. -/
structure ForwardingBuffers where
  to_client : List Nat
  to_remote_host : List Nat
  deriving DecidableEq, Repr

/-- `ForwardingBuffers.__init__`: both buffers start empty. -/
def ForwardingBuffers.init : ForwardingBuffers :=
  { to_client := [], to_remote_host := [] }

/-- The mutable state of one relay pair that the close handlers touch:
whether each side's socket has been closed and whether each side's
`buddy_dispatcher` attribute is still set (it can only point at the other
endpoint of the pair, so a `Bool` captures it). -/
structure EndpointPair where
  client_closed : Bool
  remote_closed : Bool
  client_buddy : Bool
  remote_buddy : Bool
  deriving DecidableEq, Repr

/-- Observable calls made by a relay endpoint's `handle_close`:
`selfClose` is its own `self.close()`, `buddyClose` the `buddy.close()`
cascade. -/
inductive PairEvent where
  | selfClose
  | buddyClose
  deriving DecidableEq, Repr

namespace ConnectionToClient

/-- `ConnectionToClient.handle_read`: `recv` up to `bufsize` bytes and
append them to `buffers.to_remote_host`. -/
def handle_read (b : ForwardingBuffers) (read : List Nat) : ForwardingBuffers :=
  { b with to_remote_host := b.to_remote_host ++ read }

/-- `ConnectionToClient.writable`: eligible to write iff `to_client` is
non-empty. -/
def writable (b : ForwardingBuffers) : Bool :=
  b.to_client.length > 0

/-- `ConnectionToClient.handle_write`: `send` reports `sent_count` bytes
sent; the buffer becomes `to_client[sent_count:]`. -/
def handle_write (b : ForwardingBuffers) (sent_count : Nat) : ForwardingBuffers :=
  { b with to_client := b.to_client.drop sent_count }

/-- `ConnectionToClient.handle_close`: `self.close()`, then if
`buddy_dispatcher` is set, `buddy.close()` (the low-level close, not the
buddy's `handle_close`).  The buddy reference is left as it was. -/
def handle_close (p : EndpointPair) : EndpointPair × List PairEvent :=
  let p1 := { p with client_closed := true }
  if p1.client_buddy then
    ({ p1 with remote_closed := true }, [.selfClose, .buddyClose])
  else
    (p1, [.selfClose])

end ConnectionToClient

namespace ConnectionToRemoteHost

/-- `ConnectionToRemoteHost.handle_read`: `recv` and append to
`buffers.to_client`. -/
def handle_read (b : ForwardingBuffers) (read : List Nat) : ForwardingBuffers :=
  { b with to_client := b.to_client ++ read }

/-- `ConnectionToRemoteHost.writable`: eligible to write iff
`to_remote_host` is non-empty. -/
def writable (b : ForwardingBuffers) : Bool :=
  b.to_remote_host.length > 0

/-- `ConnectionToRemoteHost.handle_write`: `send` reports `sent` bytes
sent; the buffer becomes `to_remote_host[sent:]`. -/
def handle_write (b : ForwardingBuffers) (sent : Nat) : ForwardingBuffers :=
  { b with to_remote_host := b.to_remote_host.drop sent }

/-- `ConnectionToRemoteHost.handle_close`: `self.close()`, then if
`buddy_dispatcher` is set, `buddy.close()`.  The buddy reference is left
as it was. -/
def handle_close (p : EndpointPair) : EndpointPair × List PairEvent :=
  let p1 := { p with remote_closed := true }
  if p1.remote_buddy then
    ({ p1 with client_closed := true }, [.selfClose, .buddyClose])
  else
    (p1, [.selfClose])

end ConnectionToRemoteHost

/-- The relay pair as wired up at the end of `PortForwarding.handle_accept`:
both sockets open, `to_client.buddy_dispatcher = to_remote_host` and
`to_remote_host.buddy_dispatcher = to_client` both set. -/
def mkBuddiedPair : EndpointPair :=
  { client_closed := false
    remote_closed := false
    client_buddy := true
    remote_buddy := true }

/-- The parts of a `PortForwarding`'s world its listener-level handlers can
touch: the listening socket, the fixed remote target, the established
relay sessions (pair state plus their shared buffers), and the outbound
connect calls issued so far. -/
structure ForwarderSystem where
  listener_open : Bool
  remote_address : String × Nat
  sessions : List (EndpointPair × ForwardingBuffers)
  connects : List (String × Nat)
  deriving DecidableEq, Repr

namespace PortForwarding

/-- `PortForwarding.handle_accept`: `self.accept()` returning `None`
(peer already gone) is ignored; otherwise it builds one fresh
`ForwardingBuffers`, one `ConnectionToClient` for the accepted socket and
one `ConnectionToRemoteHost` (whose `__init__` issues exactly one
`connect(self.remote_address)`), and sets the two `buddy_dispatcher`
references to one another. -/
def handle_accept (s : ForwarderSystem) (accept_result : Option Nat) :
    ForwarderSystem :=
  match accept_result with
  | none => s
  | some _ =>
      { s with
        sessions := s.sessions ++ [(mkBuddiedPair, ForwardingBuffers.init)]
        connects := s.connects ++ [s.remote_address] }

/-- `PortForwarding.handle_close`: `self.close()` — only the listening
socket is closed; established sessions are untouched. -/
def handle_close (s : ForwarderSystem) : ForwarderSystem :=
  { s with listener_open := false }

/-- The bind sequence of `PortForwarding.__init__`: try
`bind((local_ip, preferred_local_port))`; on `SocketError` fall back to
`bind((local_ip, 0))`; if that raises too, construction fails.  The
operating system is an oracle `env` mapping a (local ip, requested port)
pair to the bound port, or `none` for a `SocketError`. -/
def init_bind (env : String → Nat → Option Nat) (local_ip : String)
    (preferred_local_port : Nat) : Option Nat :=
  match env local_ip preferred_local_port with
  | some p => some p
  | none => env local_ip 0

/-- A `threading.Thread` as far as `ensure_io_loop_runs` observes it: an
identity and whether `is_alive()` holds. -/
structure ThreadState where
  id : Nat
  alive : Bool
  deriving DecidableEq, Repr

/-- `PortForwarding.ensure_io_loop_runs`: read `cls.IO_LOOP_THREAD`; if it
is not `None` and alive, return; otherwise start a fresh thread and record
it.  Returns the new `IO_LOOP_THREAD` value and whether a new thread was
created. -/
def ensure_io_loop_runs (recorded : Option ThreadState) (fresh : Nat) :
    Option ThreadState × Bool :=
  match recorded with
  | some t => if t.alive then (some t, false) else (some ⟨fresh, true⟩, true)
  | none => (some ⟨fresh, true⟩, true)

end PortForwarding

/-- The `thread is not None and thread.is_alive()` test at the top of
`ensure_io_loop_runs`. -/
def recordedAlive : Option PortForwarding.ThreadState → Bool
  | some t => t.alive
  | none => false

/-! ## Theorems about the termination protocol -/

/-- C1: evaluating the verifier's read handler at a matched secret.  With
secret `[115]` and a fresh control connection as built by
`PortForwardingTerminator.handle_accept`, receiving exactly `[115]` runs the
shutdown handlers in the order: termination channel first
(`terminatorClosed`: unlink the control address and close the control
socket), then the forwarding listener (`forwardingClosed`), then the
verifier's own connection — not listener, channel, self as claimed, because
`handle_accept` passes `socket_to_close` and `self` in swapped positions
relative to `__init__`'s `(close_listener, forwarding_listener)`
parameters. -/
theorem secret_match_shutdown_order_in_code :
    (PortForwardingTerminator.handle_accept [115]).handle_read [115]
      = ({ secret := [115], close_listener := .portForwarding,
           forwarding_listener := .terminator,
           recv_buf := [115], closed := true },
         [Event.terminatorClosed, Event.forwardingClosed,
          Event.connectionClosed]) := by
  decide

/-- C2 counterexample: with secret `[97, 98]`, a fresh verifier connection
that receives the single byte `[120]` — an accumulator that is not a prefix
of the secret (`take 1` of the secret differs from it) — is NOT closed: the
read handler leaves the connection open and performs no action, contrary to
the claim that any non-prefix input closes the connection. -/
theorem short_mismatch_leaves_connection_open :
    List.take 1 [97, 98] ≠ [120] ∧
    ((PortForwardingTerminator.handle_accept [97, 98]).handle_read
        [120]).1.closed = false ∧
    ((PortForwardingTerminator.handle_accept [97, 98]).handle_read
        [120]).2 = [] := by
  decide

/-- C2 (amended): on any received chunk whose accumulated bytes differ from
the secret, the verifier closes the control connection exactly when the
accumulator is longer than the secret; an accumulator of at most the
secret's length that differs from the secret leaves the connection open
(and performs no action), awaiting further bytes. -/
theorem verifier_closes_only_on_overflow (c : ConnectionToTerminator)
    (recv : List Nat) (hne : c.recv_buf ++ recv ≠ c.secret) :
    c.handle_read recv
      = if (c.recv_buf ++ recv).length > c.secret.length
        then ({ c with recv_buf := c.recv_buf ++ recv, closed := true },
              [Event.connectionClosed])
        else ({ c with recv_buf := c.recv_buf ++ recv }, []) := by
  have h2 : ¬ c.secret = c.recv_buf ++ recv := fun h => hne h.symm
  by_cases hov : (c.recv_buf ++ recv).length > c.secret.length <;>
    simp [ConnectionToTerminator.handle_read, hov, h2]

/-- Witness for `verifier_closes_only_on_overflow` at secret `[97, 98]` and
received chunk `[120]`. -/
theorem verifier_closes_only_on_overflow_witness :
    ((PortForwardingTerminator.handle_accept [97, 98]).recv_buf ++ [120]
        ≠ (PortForwardingTerminator.handle_accept [97, 98]).secret) ∧
    (PortForwardingTerminator.handle_accept [97, 98]).handle_read [120]
      = if ((PortForwardingTerminator.handle_accept [97, 98]).recv_buf
              ++ [120]).length >
           (PortForwardingTerminator.handle_accept [97, 98]).secret.length
        then ({ PortForwardingTerminator.handle_accept [97, 98] with
                  recv_buf := (PortForwardingTerminator.handle_accept
                    [97, 98]).recv_buf ++ [120],
                  closed := true },
              [Event.connectionClosed])
        else ({ PortForwardingTerminator.handle_accept [97, 98] with
                  recv_buf := (PortForwardingTerminator.handle_accept
                    [97, 98]).recv_buf ++ [120] }, []) :=
  ⟨by decide, verifier_closes_only_on_overflow _ _ (by decide)⟩

/-- C5: when a verifier connection's accumulator becomes longer than the
secret, the read handler's only action is closing that one control
connection: the emitted events leave any forwarding-listener and
termination-channel state unchanged, the connection is marked closed, and
no later received chunks on that connection produce any action at all (in
particular no match is ever signalled). -/
theorem overflow_rejection_is_local (c : ConnectionToTerminator)
    (recv : List Nat) (rest : List (List Nat)) (s : ChannelSystem)
    (hov : (c.recv_buf ++ recv).length > c.secret.length) :
    (c.handle_read recv).2 = [Event.connectionClosed] ∧
    (c.handle_read recv).1.closed = true ∧
    (c.handle_read recv).2.foldl applyEvent s = s ∧
    (runConn (c.handle_read recv).1 rest).2 = [] := by
  have hov2 : c.secret.length < c.recv_buf.length + recv.length := by
    simpa using hov
  have h1 : (c.handle_read recv).2 = [Event.connectionClosed] := by
    simp [ConnectionToTerminator.handle_read, hov2]
  have h2 : (c.handle_read recv).1.closed = true := by
    simp [ConnectionToTerminator.handle_read, hov2]
  refine ⟨h1, h2, ?_, ?_⟩
  · rw [h1]; rfl
  · rw [runConn_closed _ h2 rest]

/-- Witness for `overflow_rejection_is_local` at secret `[97]`, received
chunk `[1, 2]`, later chunks `[[3]]` and all listener state up. -/
theorem overflow_rejection_is_local_witness :
    (((PortForwardingTerminator.handle_accept [97]).recv_buf
        ++ [1, 2]).length >
      (PortForwardingTerminator.handle_accept [97]).secret.length) ∧
    (((PortForwardingTerminator.handle_accept [97]).handle_read [1, 2]).2
        = [Event.connectionClosed] ∧
     ((PortForwardingTerminator.handle_accept [97]).handle_read
        [1, 2]).1.closed = true ∧
     ((PortForwardingTerminator.handle_accept [97]).handle_read
        [1, 2]).2.foldl applyEvent ⟨true, true, true⟩ = ⟨true, true, true⟩ ∧
     (runConn ((PortForwardingTerminator.handle_accept [97]).handle_read
        [1, 2]).1 [[3]]).2 = []) :=
  ⟨by decide, overflow_rejection_is_local _ _ _ _ (by decide)⟩

/-! ## Theorems about the relay -/

/-- C3: each endpoint's write handler removes from its outgoing buffer
exactly the number of bytes the transport reported sent, from the front:
afterwards the buffer equals the suffix of its prior contents starting at
the sent count, the removed bytes are precisely the front `take` of the
prior contents (FIFO, no loss on partial send), the length shrinks by
exactly the sent count, and the opposite-direction buffer is untouched. -/
theorem write_drains_exactly_sent_from_front (b : ForwardingBuffers)
    (n m : Nat) (hn : n ≤ b.to_client.length)
    (hm : m ≤ b.to_remote_host.length) :
    (ConnectionToClient.handle_write b n).to_client = b.to_client.drop n ∧
    List.take n b.to_client ++ (ConnectionToClient.handle_write b n).to_client
      = b.to_client ∧
    (ConnectionToClient.handle_write b n).to_client.length
      = b.to_client.length - n ∧
    (ConnectionToClient.handle_write b n).to_remote_host = b.to_remote_host ∧
    (ConnectionToRemoteHost.handle_write b m).to_remote_host
      = b.to_remote_host.drop m ∧
    List.take m b.to_remote_host
        ++ (ConnectionToRemoteHost.handle_write b m).to_remote_host
      = b.to_remote_host ∧
    (ConnectionToRemoteHost.handle_write b m).to_remote_host.length
      = b.to_remote_host.length - m ∧
    (ConnectionToRemoteHost.handle_write b m).to_client = b.to_client := by
  refine ⟨rfl, ?_, ?_, rfl, rfl, ?_, ?_, rfl⟩ <;>
    simp [ConnectionToClient.handle_write, ConnectionToRemoteHost.handle_write]

/-- Witness for `write_drains_exactly_sent_from_front` at buffers
`to_client = [1, 2, 3]`, `to_remote_host = [4, 5]`, sent counts 2 and 1. -/
theorem write_drains_exactly_sent_from_front_witness :
    2 ≤ (ForwardingBuffers.mk [1, 2, 3] [4, 5]).to_client.length ∧
    1 ≤ (ForwardingBuffers.mk [1, 2, 3] [4, 5]).to_remote_host.length ∧
    ((ConnectionToClient.handle_write (ForwardingBuffers.mk [1, 2, 3] [4, 5])
        2).to_client = (ForwardingBuffers.mk [1, 2, 3] [4, 5]).to_client.drop 2 ∧
     List.take 2 (ForwardingBuffers.mk [1, 2, 3] [4, 5]).to_client
        ++ (ConnectionToClient.handle_write
              (ForwardingBuffers.mk [1, 2, 3] [4, 5]) 2).to_client
       = (ForwardingBuffers.mk [1, 2, 3] [4, 5]).to_client ∧
     (ConnectionToClient.handle_write (ForwardingBuffers.mk [1, 2, 3] [4, 5])
        2).to_client.length
       = (ForwardingBuffers.mk [1, 2, 3] [4, 5]).to_client.length - 2 ∧
     (ConnectionToClient.handle_write (ForwardingBuffers.mk [1, 2, 3] [4, 5])
        2).to_remote_host
       = (ForwardingBuffers.mk [1, 2, 3] [4, 5]).to_remote_host ∧
     (ConnectionToRemoteHost.handle_write
        (ForwardingBuffers.mk [1, 2, 3] [4, 5]) 1).to_remote_host
       = (ForwardingBuffers.mk [1, 2, 3] [4, 5]).to_remote_host.drop 1 ∧
     List.take 1 (ForwardingBuffers.mk [1, 2, 3] [4, 5]).to_remote_host
        ++ (ConnectionToRemoteHost.handle_write
              (ForwardingBuffers.mk [1, 2, 3] [4, 5]) 1).to_remote_host
       = (ForwardingBuffers.mk [1, 2, 3] [4, 5]).to_remote_host ∧
     (ConnectionToRemoteHost.handle_write
        (ForwardingBuffers.mk [1, 2, 3] [4, 5]) 1).to_remote_host.length
       = (ForwardingBuffers.mk [1, 2, 3] [4, 5]).to_remote_host.length - 1 ∧
     (ConnectionToRemoteHost.handle_write
        (ForwardingBuffers.mk [1, 2, 3] [4, 5]) 1).to_client
       = (ForwardingBuffers.mk [1, 2, 3] [4, 5]).to_client) :=
  ⟨by decide, by decide,
   write_drains_exactly_sent_from_front _ 2 1 (by decide) (by decide)⟩

/-- C4 counterexample: starting from the freshly buddied pair built by
`handle_accept`, running the client endpoint's close handler leaves both
`buddy_dispatcher` references set (they are never nulled), and a second
invocation of the close handler invokes the buddy's low-level close again
(`buddyClose` appears in its trace) — contrary to the claim that the buddy
references are cleared so that a second invocation never cascades. -/
theorem buddy_reference_not_cleared :
    (ConnectionToClient.handle_close mkBuddiedPair).1.client_buddy = true ∧
    (ConnectionToClient.handle_close mkBuddiedPair).1.remote_buddy = true ∧
    (ConnectionToClient.handle_close
        (ConnectionToClient.handle_close mkBuddiedPair).1).2
      = [PairEvent.selfClose, PairEvent.buddyClose] := by
  decide

/-- C4 (amended): for any mutually buddied pair, either endpoint's close
handler invokes the buddy's low-level close exactly once in that run (its
trace is `[selfClose, buddyClose]`) and leaves both endpoints closed; the
buddy references are NOT cleared, so a second invocation of either close
handler invokes the buddy's low-level close again, but since the low-level
close is idempotent on state, re-running either handler leaves the pair
state unchanged (no double-close effect). -/
theorem close_cascades_once_per_run_and_is_idempotent (p : EndpointPair)
    (hc : p.client_buddy = true) (hr : p.remote_buddy = true) :
    (ConnectionToClient.handle_close p).1.client_closed = true ∧
    (ConnectionToClient.handle_close p).1.remote_closed = true ∧
    (ConnectionToClient.handle_close p).2
      = [PairEvent.selfClose, PairEvent.buddyClose] ∧
    (ConnectionToClient.handle_close p).1.client_buddy = true ∧
    (ConnectionToClient.handle_close p).1.remote_buddy = true ∧
    (ConnectionToRemoteHost.handle_close p).1.client_closed = true ∧
    (ConnectionToRemoteHost.handle_close p).1.remote_closed = true ∧
    (ConnectionToRemoteHost.handle_close p).2
      = [PairEvent.selfClose, PairEvent.buddyClose] ∧
    (ConnectionToClient.handle_close
        (ConnectionToClient.handle_close p).1).1
      = (ConnectionToClient.handle_close p).1 ∧
    (ConnectionToRemoteHost.handle_close
        (ConnectionToClient.handle_close p).1).1
      = (ConnectionToClient.handle_close p).1 ∧
    (ConnectionToClient.handle_close
        (ConnectionToRemoteHost.handle_close p).1).1
      = (ConnectionToRemoteHost.handle_close p).1 ∧
    (ConnectionToRemoteHost.handle_close
        (ConnectionToRemoteHost.handle_close p).1).1
      = (ConnectionToRemoteHost.handle_close p).1 := by
  cases p
  simp_all [ConnectionToClient.handle_close, ConnectionToRemoteHost.handle_close]

/-- Witness for `close_cascades_once_per_run_and_is_idempotent` at the
freshly buddied pair. -/
theorem close_cascades_once_per_run_and_is_idempotent_witness :
    mkBuddiedPair.client_buddy = true ∧
    mkBuddiedPair.remote_buddy = true ∧
    ((ConnectionToClient.handle_close mkBuddiedPair).1.client_closed = true ∧
     (ConnectionToClient.handle_close mkBuddiedPair).1.remote_closed = true ∧
     (ConnectionToClient.handle_close mkBuddiedPair).2
       = [PairEvent.selfClose, PairEvent.buddyClose] ∧
     (ConnectionToClient.handle_close mkBuddiedPair).1.client_buddy = true ∧
     (ConnectionToClient.handle_close mkBuddiedPair).1.remote_buddy = true ∧
     (ConnectionToRemoteHost.handle_close mkBuddiedPair).1.client_closed
       = true ∧
     (ConnectionToRemoteHost.handle_close mkBuddiedPair).1.remote_closed
       = true ∧
     (ConnectionToRemoteHost.handle_close mkBuddiedPair).2
       = [PairEvent.selfClose, PairEvent.buddyClose] ∧
     (ConnectionToClient.handle_close
         (ConnectionToClient.handle_close mkBuddiedPair).1).1
       = (ConnectionToClient.handle_close mkBuddiedPair).1 ∧
     (ConnectionToRemoteHost.handle_close
         (ConnectionToClient.handle_close mkBuddiedPair).1).1
       = (ConnectionToClient.handle_close mkBuddiedPair).1 ∧
     (ConnectionToClient.handle_close
         (ConnectionToRemoteHost.handle_close mkBuddiedPair).1).1
       = (ConnectionToRemoteHost.handle_close mkBuddiedPair).1 ∧
     (ConnectionToRemoteHost.handle_close
         (ConnectionToRemoteHost.handle_close mkBuddiedPair).1).1
       = (ConnectionToRemoteHost.handle_close mkBuddiedPair).1) :=
  ⟨by decide, by decide,
   close_cascades_once_per_run_and_is_idempotent _ (by decide) (by decide)⟩

/-- C10: relay data flow is direction-preserving at the buffer level: the
client endpoint's read handler only appends to `to_remote_host` and leaves
`to_client` unchanged, its write handler only drains `to_client` and
leaves `to_remote_host` unchanged; symmetrically the remote endpoint's
read handler only appends to `to_client` and its write handler only drains
`to_remote_host`. -/
theorem relay_direction_preserving (b : ForwardingBuffers) (read : List Nat)
    (n m : Nat) :
    (ConnectionToClient.handle_read b read).to_client = b.to_client ∧
    (ConnectionToClient.handle_read b read).to_remote_host
      = b.to_remote_host ++ read ∧
    (ConnectionToClient.handle_write b n).to_remote_host = b.to_remote_host ∧
    (ConnectionToRemoteHost.handle_read b read).to_remote_host
      = b.to_remote_host ∧
    (ConnectionToRemoteHost.handle_read b read).to_client
      = b.to_client ++ read ∧
    (ConnectionToRemoteHost.handle_write b m).to_client = b.to_client :=
  ⟨rfl, rfl, rfl, rfl, rfl, rfl⟩

/-! ## Theorems about the forwarding listener -/

/-- C6: the listener's bind sequence uses the preferred local port when the
first bind succeeds; when that bind raises a socket error it falls back to
binding the same local address on port 0 (an OS-chosen ephemeral port);
and construction fails with a bind error exactly when both binds fail. -/
theorem listener_bind_fallback (env : String → Nat → Option Nat)
    (ip : String) (pref : Nat) :
    (PortForwarding.init_bind env ip pref
       = if (env ip pref).isSome then env ip pref else env ip 0) ∧
    (PortForwarding.init_bind env ip pref = none
       ↔ env ip pref = none ∧ env ip 0 = none) := by
  cases h : env ip pref <;> simp [PortForwarding.init_bind, h]

/-- C7: starting the event loop is idempotent: if the recorded loop thread
exists and is alive, `ensure_io_loop_runs` returns the recorded state
unchanged and creates nothing; otherwise (no thread recorded, or the
recorded one has exited) it creates and records a fresh live thread; and
immediately repeating the call after any call never creates a second
thread, so repeated sequential calls yield at most one live loop. -/
theorem loop_start_idempotent (recorded : Option PortForwarding.ThreadState)
    (fresh fresh2 : Nat) :
    (PortForwarding.ensure_io_loop_runs recorded fresh
       = if recordedAlive recorded then (recorded, false)
         else (some ⟨fresh, true⟩, true)) ∧
    PortForwarding.ensure_io_loop_runs
        (PortForwarding.ensure_io_loop_runs recorded fresh).1 fresh2
      = ((PortForwarding.ensure_io_loop_runs recorded fresh).1, false) := by
  cases recorded with
  | none => simp [PortForwarding.ensure_io_loop_runs, recordedAlive]
  | some t =>
      cases ht : t.alive <;>
        simp [PortForwarding.ensure_io_loop_runs, recordedAlive, ht]

/-- C8: the forwarding listener's close handler closes only its own
listening socket: the established relay sessions (pairs and their
buffers), the recorded outbound connects and the remote target are all
unchanged. -/
theorem shutdown_closes_only_listener (s : ForwarderSystem) :
    (PortForwarding.handle_close s).sessions = s.sessions ∧
    (PortForwarding.handle_close s).remote_address = s.remote_address ∧
    (PortForwarding.handle_close s).connects = s.connects ∧
    (PortForwarding.handle_close s).listener_open = false :=
  ⟨rfl, rfl, rfl, rfl⟩

/-- C9: when accept reports the peer already gone (`None`), the accept
handler changes nothing; when accept yields a connection, it creates
exactly one session — one fresh pair of empty shared buffers and one
mutually buddied endpoint pair — and issues exactly one outbound connect,
to the fixed remote target, leaving the listener itself unchanged. -/
theorem accept_creates_one_buddied_pair (s : ForwarderSystem) (conn : Nat) :
    PortForwarding.handle_accept s none = s ∧
    (PortForwarding.handle_accept s (some conn)).sessions
      = s.sessions ++ [(mkBuddiedPair, ForwardingBuffers.init)] ∧
    (PortForwarding.handle_accept s (some conn)).connects
      = s.connects ++ [s.remote_address] ∧
    (PortForwarding.handle_accept s (some conn)).listener_open
      = s.listener_open ∧
    (PortForwarding.handle_accept s (some conn)).remote_address
      = s.remote_address ∧
    mkBuddiedPair.client_buddy = true ∧
    mkBuddiedPair.remote_buddy = true ∧
    mkBuddiedPair.client_closed = false ∧
    mkBuddiedPair.remote_closed = false ∧
    ForwardingBuffers.init.to_client = [] ∧
    ForwardingBuffers.init.to_remote_host = [] :=
  ⟨rfl, rfl, rfl, rfl, rfl, rfl, rfl, rfl, rfl, rfl, rfl⟩

end Pynat
